import Mathlib

/-!
Verification development for the Python gRPC RL environment client
(rl_env_engine, python_client/rl_env_engine_client/grpc_env.py).

The Python values, numpy buffers, protobuf wire messages and the
conversion routines of the source are embedded as executable Lean
definitions; floating-point numbers are modelled as rationals (none of
the verified routines performs rounding-sensitive arithmetic: they only
move numeric values between representations).
-/

namespace RlEnvEngine

/-- Numpy dtypes that appear in the source's dtype dispatch
(`action.dtype in [np.float32, np.float64]` etc.).  The source treats the
two float widths identically and the two int widths identically, so the
model records only the kind-level distinctions it branches on, plus the
named attributes used by space decoding. -/
inductive NpDtype where
  | float32
  | float64
  | int32
  | int64
  | boolKind
  deriving DecidableEq, Repr

/-- Payload of a numpy ndarray, by element kind.  Mirrors the three dtype
groups of `_convert_action_to_proto`'s ndarray branch: floating
(float32/float64), integer (int32/int64), boolean (bool_). -/
inductive NpData where
  | floats (xs : List Rat)
  | ints (xs : List Int)
  | bools (xs : List Bool)
  deriving DecidableEq, Repr

/-- Python runtime values that can reach `_convert_action_to_proto`.
Scalars keep their Python type tag because the source dispatches on
`isinstance`: a Python `bool`, a Python `int`, a Python `float`, a numpy
integer scalar, a numpy floating scalar, a numpy `bool_` scalar, a string,
a list/tuple, or an ndarray. -/
inductive PyObj where
  | pyBool (b : Bool)
  | pyInt (n : Int)
  | pyFloat (x : Rat)
  | npInteger (n : Int)
  | npFloating (x : Rat)
  | npBool (b : Bool)
  | pyStr (s : String)
  | pyList (xs : List PyObj)
  | npArray (d : NpData)

/-- The protobuf `Action` message: a tagged union with exactly one
populated variant. -/
inductive ProtoAction where
  | intValue (n : Int)
  | floatValue (x : Rat)
  | boolValue (b : Bool)
  | stringValue (s : String)
  | intArray (xs : List Int)
  | floatArray (xs : List Rat)
  | boolArray (xs : List Bool)
  deriving DecidableEq, Repr

/-- Python `isinstance(x, (int, np.integer))`.  Crucially, Python's `bool`
is a subclass of `int`, so a Python boolean satisfies this check; numpy's
`bool_` is not a subclass of `int` or `np.integer` and does not. -/
def isIntInstance : PyObj → Bool
  | .pyBool _ => true
  | .pyInt _ => true
  | .npInteger _ => true
  | _ => false

/-- Python `isinstance(x, (float, np.floating))`. -/
def isFloatInstance : PyObj → Bool
  | .pyFloat _ => true
  | .npFloating _ => true
  | _ => false

/-- Python `isinstance(x, bool)`.  Only a Python `bool` satisfies it;
numpy's `bool_` is not a subclass of Python `bool`. -/
def isBoolInstance : PyObj → Bool
  | .pyBool _ => true
  | _ => false

/-- Python `int(x)` on values that satisfy the integer isinstance check
(`True` converts to 1, `False` to 0).  Also the coercion protobuf applies
when such a value is stored in an int64 field or repeated int64 field. -/
def toIntVal : PyObj → Int
  | .pyBool b => if b then 1 else 0
  | .pyInt n => n
  | .npInteger n => n
  | _ => 0

/-- Python `float(x)` on values that satisfy the floating isinstance
check. -/
def toFloatVal : PyObj → Rat
  | .pyFloat x => x
  | .npFloating x => x
  | _ => 0

/-- Python `bool(x)` on values that satisfy the bool isinstance check. -/
def toBoolVal : PyObj → Bool
  | .pyBool b => b
  | _ => false

/-- Number of elements of an ndarray payload (`action.size`). -/
def npSize : NpData → Nat
  | .floats xs => xs.length
  | .ints xs => xs.length
  | .bools xs => xs.length

/-- Indexing `b[0]` on a one-dimensional numpy array: the result is a
numpy scalar of the array's kind (np.floating / np.integer / np.bool_),
never a plain Python scalar. -/
def npItem0 : NpData → PyObj
  | .floats xs => .npFloating (xs.headD 0)
  | .ints xs => .npInteger (xs.headD 0)
  | .bools xs => .npBool (xs.headD false)

/-- Python's builtin `float(x)` as used by the encoder's last-resort
fallback, returning `none` where CPython raises `TypeError`/`ValueError`:
numeric scalars (including numpy `bool_`) convert, lists and tuples never
convert, and a size-1 ndarray converts to its sole element.  (Strings can
never reach the fallback in `_convert_action_to_proto` because the string
branch precedes it, so the string arm conservatively returns `none`.) -/
def pyFloatFn : PyObj → Option Rat
  | .pyBool b => some (if b then 1 else 0)
  | .pyInt n => some (n : Rat)
  | .pyFloat x => some x
  | .npInteger n => some (n : Rat)
  | .npFloating x => some x
  | .npBool b => some (if b then 1 else 0)
  | .pyStr _ => none
  | .pyList _ => none
  | .npArray d =>
    match d with
    | .floats xs => if xs.length = 1 then some (xs.headD 0) else none
    | .ints xs => if xs.length = 1 then some ((xs.headD 0 : Int) : Rat) else none
    | .bools xs => if xs.length = 1 then some (if xs.headD false then 1 else 0) else none

/-- The ndarray branch of `_convert_action_to_proto`: arrays of size 1 are
unwrapped to the matching scalar variant, larger (or empty) arrays become
the matching array variant.  (`astype` between the two float widths and
`tolist` are value-preserving in the rational model.) -/
def encodeNdarray : NpData → ProtoAction
  | .floats xs => if xs.length = 1 then .floatValue (xs.headD 0) else .floatArray xs
  | .ints xs => if xs.length = 1 then .intValue (xs.headD 0) else .intArray xs
  | .bools xs => if xs.length = 1 then .boolValue (xs.headD false) else .boolArray xs

/-- The final fallback of `_convert_action_to_proto`: try `float(action)`;
on `ValueError`/`TypeError` raise
`ValueError("Cannot convert action ...")`.  (The source message also
interpolates the Python type and value of the action.) -/
def floatFallback (action : PyObj) : Except String ProtoAction :=
  match pyFloatFn action with
  | some x => .ok (.floatValue x)
  | none => .error "Cannot convert action to protobuf Action"

/-- `GrpcEnv._convert_action_to_proto`, branch for branch in source order:
ndarray dispatch first (all modelled dtypes are covered by its three
groups, so it always returns), then the isinstance chain
(int, np.integer) / (float, np.floating) / bool / str, then list/tuple
type inference, then the float fallback.  Putting a Python bool in a
protobuf int64 repeated field stores its integer value, hence the
`toIntVal` map in the int-array arm. -/
def convertActionToProto (action : PyObj) : Except String ProtoAction :=
  match action with
  | .npArray d => .ok (encodeNdarray d)
  | _ =>
    if isIntInstance action then .ok (.intValue (toIntVal action))
    else if isFloatInstance action then .ok (.floatValue (toFloatVal action))
    else if isBoolInstance action then .ok (.boolValue (toBoolVal action))
    else
      match action with
      | .pyStr s => .ok (.stringValue s)
      | .pyList xs =>
        if xs.all isIntInstance then .ok (.intArray (xs.map toIntVal))
        else if xs.all isFloatInstance then .ok (.floatArray (xs.map toFloatVal))
        else if xs.all isBoolInstance then .ok (.boolArray (xs.map toBoolVal))
        else floatFallback action
      | _ => floatFallback action

/-- A protobuf `SpaceDefinition` descriptor: integer type tag
(0 = BOX, 1 = DISCRETE, 2 = MULTI_DISCRETE, 3 = MULTI_BINARY), repeated
low/high bounds, repeated shape, and a dtype name string whose proto
default is the empty string. -/
structure ProtoSpace where
  type : Nat
  low : List Rat
  high : List Rat
  shape : List Nat
  dtype : String
  deriving DecidableEq, Repr

/-- A per-dimension bound of a gym Box: finite, or one of numpy's
infinities. -/
inductive Bound where
  | negInf
  | posInf
  | fin (x : Rat)
  deriving DecidableEq, Repr

/-- The gymnasium spaces the decoder can produce. -/
inductive GymSpace where
  | box (low high : List Bound) (shape : List Nat) (dtype : NpDtype)
  | discrete (n : Int)
  | multiDiscrete (shape : List Nat)
  | multiBinary (shape : List Nat)
  deriving DecidableEq, Repr

/-- Numpy attribute lookup `getattr(np, name)` restricted to dtype names,
returning `none` where CPython raises `AttributeError` (a name that is
not an attribute of the numpy module, such as "no_such_dtype"). -/
def numpyDtypeAttr : String → Option NpDtype
  | "float32" => some .float32
  | "float64" => some .float64
  | "int32" => some .int32
  | "int64" => some .int64
  | "bool_" => some .boolKind
  | _ => none

/-- The hard-coded fallback space
`spaces.Box(low=-1.0, high=1.0, shape=(1,), dtype=np.float32)` (scalar
bounds broadcast over the one-element shape). -/
def fallbackBox : GymSpace := .box [.fin (-1)] [.fin 1] [1] .float32

/-- The default observation space used when space setup fails:
`spaces.Box(low=-np.inf, high=np.inf, shape=(1,), dtype=np.float32)`. -/
def defaultObservationBox : GymSpace := .box [.negInf] [.posInf] [1] .float32

/-- `GrpcEnv._convert_proto_space_to_gym`.  Type tag 0 builds a Box whose
dtype is `getattr(np, proto_space.dtype) if proto_space.dtype else
np.float32` — the empty (falsy) string defaults to float32, while a
non-empty name goes through attribute lookup, which raises
`AttributeError` for an unknown name; tag 1 builds
`Discrete(int(shape[0]) if shape else 2)`; tags 2 and 3 build
MultiDiscrete/MultiBinary from the shape; any other tag returns the
fallback Box. -/
def convertProtoSpaceToGym (ps : ProtoSpace) : Except String GymSpace :=
  if ps.type = 0 then
    match (if ps.dtype = "" then some NpDtype.float32 else numpyDtypeAttr ps.dtype) with
    | some dt => .ok (.box (ps.low.map .fin) (ps.high.map .fin) ps.shape dt)
    | none => .error ("AttributeError: module numpy has no attribute " ++ ps.dtype)
  else if ps.type = 1 then
    .ok (.discrete (match ps.shape with | [] => 2 | n :: _ => (n : Int)))
  else if ps.type = 2 then
    .ok (.multiDiscrete ps.shape)
  else if ps.type = 3 then
    .ok (.multiBinary ps.shape)
  else
    .ok fallbackBox

/-- The fallible part of `GrpcEnv._setup_spaces`: fetch the two space
descriptors from the server (the `fetched` argument stands for the
`GetSpaces` RPC, which may itself fail), then decode the action space and
the observation space. -/
def spacesPipeline (fetched : Except String (ProtoSpace × ProtoSpace)) :
    Except String (GymSpace × GymSpace) := do
  let ps ← fetched
  let actionSpace ← convertProtoSpaceToGym ps.1
  let obsSpace ← convertProtoSpaceToGym ps.2
  pure (actionSpace, obsSpace)

/-- `GrpcEnv._setup_spaces`: on success the decoded spaces are installed
and `_spaces_loaded` is set to true; any exception is caught and the
fallback action Box, the unbounded observation Box and
`_spaces_loaded = False` are installed instead; the method itself never
raises. -/
def setupSpaces (fetched : Except String (ProtoSpace × ProtoSpace)) :
    GymSpace × GymSpace × Bool :=
  match spacesPipeline fetched with
  | .ok (a, o) => (a, o, true)
  | .error _ => (fallbackBox, defaultObservationBox, false)

/-- Decimal digit to character, as produced by Python's integer
formatting. -/
def digitChar : Nat → Char
  | 0 => '0'
  | 1 => '1'
  | 2 => '2'
  | 3 => '3'
  | 4 => '4'
  | 5 => '5'
  | 6 => '6'
  | 7 => '7'
  | 8 => '8'
  | 9 => '9'
  | _ => '?'

/-- Most-significant-first decimal digits, with explicit recursion fuel
(the fuel is an upper bound on the rendered number, which suffices since
division by ten strictly decreases a positive number). -/
def decimalDigitsAux : Nat → Nat → List Nat
  | 0, n => [n]
  | fuel + 1, n => if n < 10 then [n] else decimalDigitsAux fuel (n / 10) ++ [n % 10]

/-- Most-significant-first decimal digits of a natural number. -/
def decimalDigitsList (n : Nat) : List Nat := decimalDigitsAux n n

/-- Decimal rendering of a natural number, as Python's str/f-string
formatting of a nonnegative int. -/
def natToDecimalString (n : Nat) : String :=
  String.mk ((decimalDigitsList n).map digitChar)

/-- The env_id auto-generation of `GrpcEnv.__init__`:
the f-string `"grpc_env_" + scenario + "_" + str(r)` where `r` stands for
the draw `np.random.randint(1000, 9999)` — uniform over 1000..9998, the
upper bound being exclusive. -/
def genEnvId (scenario : String) (r : Nat) : String :=
  "grpc_env_" ++ scenario ++ "_" ++ natToDecimalString r

/-- Values stored in the info dictionary returned by reset: the server
sends string-valued entries, and the client may add the integer-valued
observation_size entry. -/
inductive InfoVal where
  | str (s : String)
  | int (n : Int)
  deriving DecidableEq, Repr

/-- One observation message of a reset/step response: a repeated float
data field. -/
structure Observation where
  data : List Rat
  deriving DecidableEq, Repr

/-- A `ResetEnvironmentResponse`: repeated observations plus a
string-to-string info map. -/
structure ResetResponse where
  observations : List Observation
  info : List (String × String)
  deriving DecidableEq, Repr

/-- Python dict lookup `d[k]` / `d.get(k)` on an association list: first
binding of the key, if any. -/
def dictGet (d : List (String × InfoVal)) (k : String) : Option InfoVal :=
  match d with
  | [] => none
  | p :: t => if p.1 = k then some p.2 else dictGet t k

/-- Python dict assignment `d[k] = v` on an association list: replace
every binding of the key in place if present, otherwise append. -/
def dictSet (d : List (String × InfoVal)) (k : String) (v : InfoVal) :
    List (String × InfoVal) :=
  if d.any (fun p => p.1 = k) then
    d.map (fun p => if p.1 = k then (k, v) else p)
  else
    d ++ [(k, v)]

/-- The response-parsing part of `GrpcEnv.reset`: raise when the response
carries no observations; otherwise take the first observation's data as
the observation vector (the per-element `float(x)` conversion is the
identity in the rational model), build the info dict from the server's
entries, and add `observation_size = len(observation)` only when
`len(observation) >= 1`. -/
def resetParse (resp : ResetResponse) :
    Except String (List Rat × List (String × InfoVal)) :=
  match resp.observations with
  | [] => .error "No observations received from environment reset"
  | obs0 :: _ =>
    let observation := obs0.data
    let info := resp.info.map (fun p => (p.1, InfoVal.str p.2))
    let info :=
      if 1 ≤ observation.length then
        dictSet info "observation_size" (.int observation.length)
      else info
    .ok (observation, info)

/-- Remote requests relevant to the lifecycle claims. -/
inductive Request where
  | createEnv
  | resetEnv
  | closeEnv
  deriving DecidableEq, Repr

/-- Client-side lifecycle state: the `_env_created` flag. -/
structure EnvState where
  envCreated : Bool
  deriving DecidableEq, Repr

/-- `GrpcEnv._create_environment`: return immediately when the
environment is already created (no request issued); otherwise issue a
`CreateEnvironment` request and, if the server reports success, set
`_env_created`; a failure response raises and leaves the flag unset.
The result pairs the requests issued with the outcome. -/
def createEnvironment (serverOk : Bool) (s : EnvState) :
    List Request × Except String EnvState :=
  if s.envCreated then ([], .ok s)
  else
    ([.createEnv],
      if serverOk then .ok { envCreated := true }
      else .error "Failed to create environment")

/-- `GrpcEnv.close`: when a client exists and `_env_created` is set, issue
a `CloseEnvironment` request (best-effort: RPC errors are caught) and
clear the flag in the `finally` block; otherwise issue nothing. -/
def closeEnv (s : EnvState) : List Request × EnvState :=
  if s.envCreated then ([.closeEnv], { envCreated := false })
  else ([], s)

/-- `GrpcEnv.reset` at the request/state level: ensure the environment is
created (raising if creation fails, in which case the reset request is
never sent), issue the `ResetEnvironment` request, and parse the
response.  The first component records every request issued. -/
def resetCall (serverOk : Bool) (s : EnvState) (resp : ResetResponse) :
    List Request × Except String (EnvState × List Rat × List (String × InfoVal)) :=
  match createEnvironment serverOk s with
  | (reqs, .error e) => (reqs, .error e)
  | (reqs, .ok s1) =>
    (reqs ++ [.resetEnv],
      (resetParse resp).map (fun p => (s1, p.1, p.2)))

example : convertActionToProto (.pyBool true) = .ok (.intValue 1) := rfl
example : convertActionToProto (.pyInt 7) = .ok (.intValue 7) := rfl
example : convertActionToProto (.npArray (.bools [true])) = .ok (.boolValue true) := rfl
example : convertActionToProto (.npBool true) = .ok (.floatValue 1) := rfl
example : convertActionToProto (.pyList [.pyInt 1, .pyFloat (5/2), .pyBool true])
    = .error "Cannot convert action to protobuf Action" := rfl
example : convertActionToProto (.pyList [.pyBool true, .pyInt 3]) = .ok (.intArray [1, 3]) := rfl

/-! Shared auxiliary lemmas. -/

theorem decimalDigitsAux_length : ∀ (k fuel n : Nat), n ≤ fuel → 10 ^ k ≤ n →
    n < 10 ^ (k + 1) → (decimalDigitsAux fuel n).length = k + 1 := by
  intro k
  induction k with
  | zero =>
    intro fuel n hf h1 h2
    simp at h1 h2
    match fuel with
    | 0 => simp [decimalDigitsAux]
    | f + 1 => simp [decimalDigitsAux, h2]
  | succ k ih =>
    intro fuel n hf h1 h2
    have h10 : 10 ≤ n := by
      have : 10 ≤ 10 ^ (k + 1) := by
        calc 10 = 10 ^ 1 := by norm_num
        _ ≤ 10 ^ (k + 1) := Nat.pow_le_pow_right (by norm_num) (by omega)
      omega
    match fuel with
    | 0 => omega
    | f + 1 =>
      have hlt : ¬ n < 10 := by omega
      simp only [decimalDigitsAux, hlt, if_false, List.length_append, List.length_cons,
        List.length_nil]
      have hdiv : n / 10 < n := Nat.div_lt_self (by omega) (by omega)
      have hb1 : 10 ^ k ≤ n / 10 := by
        rw [Nat.le_div_iff_mul_le (by norm_num)]
        calc 10 ^ k * 10 = 10 ^ (k + 1) := by ring
        _ ≤ n := h1
      have hb2 : n / 10 < 10 ^ (k + 1) := by
        rw [Nat.div_lt_iff_lt_mul (by norm_num)]
        calc n < 10 ^ (k + 1 + 1) := h2
        _ = 10 ^ (k + 1) * 10 := by ring
      rw [ih f (n / 10) (by omega) hb1 hb2]

theorem decimalDigitsAux_lt_ten : ∀ (fuel n : Nat), n ≤ fuel →
    ∀ d ∈ decimalDigitsAux fuel n, d < 10 := by
  intro fuel
  induction fuel with
  | zero =>
    intro n hf d hd
    simp [decimalDigitsAux] at hd
    omega
  | succ f ih =>
    intro n hf d hd
    by_cases h : n < 10
    · simp [decimalDigitsAux, h] at hd
      omega
    · simp [decimalDigitsAux, h] at hd
      rcases hd with hd | hd
      · have hdiv : n / 10 < n := Nat.div_lt_self (by omega) (by omega)
        exact ih (n / 10) (by omega) d hd
      · omega

theorem digitChar_isDigit (d : Nat) (h : d < 10) : (digitChar d).isDigit := by
  interval_cases d <;> decide

theorem dictGet_dictSet (d : List (String × InfoVal)) (k : String) (v : InfoVal) :
    dictGet (dictSet d k v) k = some v := by
  unfold dictSet
  split
  · rename_i hany
    induction d with
    | nil => simp at hany
    | cons p t ih =>
      by_cases hp : p.1 = k
      · simp [dictGet, hp]
      · simp only [List.any_cons, hp, decide_eq_false hp, Bool.false_or] at hany
        simp [dictGet, hp]
        exact ih hany
  · rename_i hany
    induction d with
    | nil => simp [dictGet]
    | cons p t ih =>
      simp only [List.any_cons, Bool.or_eq_true, not_or] at hany
      have hp : ¬ p.1 = k := by
        intro h
        exact hany.1 (by simp [h])
      simp only [List.cons_append]
      simp [dictGet, hp]
      apply ih
      simp only [Bool.not_eq_true] at hany ⊢
      exact hany.2

/-! Claim theorems. -/

/-- C1: the claim states that every Python boolean scalar encodes to the
boolean wire variant because the boolean check precedes the integer
check.  The code does the opposite: Python's `bool` is a subclass of
`int`, so the integer isinstance check — which comes first in the
cascade — captures every Python boolean and encodes it as the integer
scalar variant (True as 1, False as 0); the boolean scalar branch of the
source is unreachable for Python booleans.  This theorem evaluates the
embedded cascade on boolean scalars and shows the bool variant is never
produced. -/
theorem pyBool_scalar_encodes_as_intValue :
    convertActionToProto (.pyBool true) = .ok (.intValue 1) ∧
    convertActionToProto (.pyBool false) = .ok (.intValue 0) ∧
    (Except.ok (ProtoAction.intValue 1) : Except String ProtoAction)
      ≠ .ok (.boolValue true) ∧
    (Except.ok (ProtoAction.intValue 0) : Except String ProtoAction)
      ≠ .ok (.boolValue false) := by
  exact ⟨rfl, rfl, by simp, by simp⟩

/-- C2 counterexample: the mixed-kind list [1, 2.5, True] — whose
elements all coerce to floating point individually — does not encode as
a float array: the fallback applies Python's float() to the whole list,
which raises, so the encoder raises its unsupported-action error. -/
theorem mixedList_counterexample :
    convertActionToProto (.pyList [.pyInt 1, .pyFloat (5/2), .pyBool true])
      = .error "Cannot convert action to protobuf Action" ∧
    (Except.error "Cannot convert action to protobuf Action" : Except String ProtoAction)
      ≠ .ok (.floatArray [1, 5/2, 1]) := by
  exact ⟨rfl, by simp⟩

/-- C2 (amended): for every list action whose elements are not uniformly
one kind (not all integer instances, not all float instances, not all
bool instances), the encoder reaches the last-resort fallback, which
applies float() to the whole list; that always fails for a list, so the
encoder raises the unsupported-action error — there is no per-element
float coercion, and [1, 2.5, True] raises just as [1, "x"] does. -/
theorem mixedList_always_raises (xs : List PyObj)
    (h1 : xs.all isIntInstance = false)
    (h2 : xs.all isFloatInstance = false)
    (h3 : xs.all isBoolInstance = false) :
    convertActionToProto (.pyList xs)
      = .error "Cannot convert action to protobuf Action" := by
  simp [convertActionToProto, isIntInstance, isFloatInstance, isBoolInstance,
    h1, h2, h3, floatFallback, pyFloatFn]

/-- C2 witness: the spec's own offending example [1, "x"] raises. -/
theorem mixedList_always_raises_witness :
    convertActionToProto (.pyList [.pyInt 1, .pyStr "x"])
      = .error "Cannot convert action to protobuf Action" :=
  mixedList_always_raises [.pyInt 1, .pyStr "x"] (by decide) (by decide) (by decide)

/-- C9: a non-empty list whose elements are all Python integers or
booleans (at least one boolean) satisfies the all-integer element check
— booleans are integer instances — so it encodes as the integer-array
variant with True stored as 1 and False as 0, never as a boolean
array. -/
theorem intBoolList_encodes_intArray (xs : List PyObj)
    (_hne : xs ≠ [])
    (hall : xs.all isIntInstance = true)
    (_hsome : xs.any isBoolInstance = true) :
    convertActionToProto (.pyList xs) = .ok (.intArray (xs.map toIntVal)) ∧
    toIntVal (.pyBool true) = 1 ∧ toIntVal (.pyBool false) = 0 ∧
    ∀ bs : List Bool, convertActionToProto (.pyList xs) ≠ .ok (.boolArray bs) := by
  have heq : convertActionToProto (.pyList xs) = .ok (.intArray (xs.map toIntVal)) := by
    simp [convertActionToProto, isIntInstance, isFloatInstance, isBoolInstance, hall]
  refine ⟨heq, rfl, rfl, ?_⟩
  intro bs h
  rw [heq] at h
  simp at h

/-- C9 witness: [True, 3] encodes as the int array [1, 3]. -/
theorem intBoolList_encodes_intArray_witness :
    convertActionToProto (.pyList [.pyBool true, .pyInt 3])
        = .ok (.intArray ([PyObj.pyBool true, PyObj.pyInt 3].map toIntVal)) ∧
    toIntVal (.pyBool true) = 1 ∧ toIntVal (.pyBool false) = 0 ∧
    ∀ bs : List Bool, convertActionToProto (.pyList [.pyBool true, .pyInt 3])
        ≠ .ok (.boolArray bs) :=
  intBoolList_encodes_intArray [.pyBool true, .pyInt 3] (by simp) (by decide) (by decide)

/-- C5 counterexample: the size-1 boolean buffer np.array([True]) encodes
as the boolean scalar variant, but its bare element b[0] is a numpy
bool_ scalar, which matches none of the isinstance branches (numpy bool_
subclasses neither int nor Python bool) and falls to the float()
fallback, encoding as the float scalar 1.0 — so encode(b) differs from
encode(b[0]) for boolean buffers. -/
theorem sizeOne_bool_counterexample :
    convertActionToProto (.npArray (.bools [true])) = .ok (.boolValue true) ∧
    convertActionToProto (npItem0 (.bools [true])) = .ok (.floatValue 1) ∧
    (Except.ok (ProtoAction.boolValue true) : Except String ProtoAction)
      ≠ .ok (.floatValue 1) := by
  exact ⟨rfl, rfl, by simp⟩

/-- C5 (amended): the size-1 normalization law encode(b) = encode(b[0])
holds for floating and integer buffers, whose numpy scalar elements hit
the matching isinstance branch; for a size-1 boolean buffer the buffer
encodes as the boolean scalar variant while its numpy bool_ element
falls to the float() fallback and encodes as the float scalar 1.0 or
0.0. -/
theorem sizeOne_normalization_amended :
    (∀ xs : List Rat, xs.length = 1 →
      convertActionToProto (.npArray (.floats xs))
        = convertActionToProto (npItem0 (.floats xs))) ∧
    (∀ xs : List Int, xs.length = 1 →
      convertActionToProto (.npArray (.ints xs))
        = convertActionToProto (npItem0 (.ints xs))) ∧
    (∀ xs : List Bool, xs.length = 1 →
      convertActionToProto (.npArray (.bools xs)) = .ok (.boolValue (xs.headD false)) ∧
      convertActionToProto (npItem0 (.bools xs))
        = .ok (.floatValue (if xs.headD false then 1 else 0))) := by
  refine ⟨?_, ?_, ?_⟩ <;> intro xs h <;> obtain ⟨x, rfl⟩ := List.length_eq_one.mp h
  · rfl
  · rfl
  · exact ⟨rfl, rfl⟩

/-- C5 witness: the law at the one-element float buffer [3/2] and the
divergence at the one-element boolean buffer [true]. -/
theorem sizeOne_normalization_amended_witness :
    convertActionToProto (.npArray (.floats [3/2]))
        = convertActionToProto (npItem0 (.floats [3/2])) ∧
    (convertActionToProto (.npArray (.bools [true])) = .ok (.boolValue true) ∧
      convertActionToProto (npItem0 (.bools [true]))
        = .ok (.floatValue (if ([true].headD false) then 1 else 0))) :=
  ⟨sizeOne_normalization_amended.1 [3/2] (by decide),
   sizeOne_normalization_amended.2.2 [true] (by decide)⟩

/-- C3 counterexample: a BOX descriptor whose dtype tag is present but
names no numpy attribute makes the decoder raise AttributeError instead
of defaulting the dtype to 32-bit float, so decode is not raise-free. -/
theorem decode_unknownDtype_counterexample :
    convertProtoSpaceToGym ⟨0, [0], [1], [1], "no_such_dtype"⟩
      = .error ("AttributeError: module numpy has no attribute " ++ "no_such_dtype") ∧
    (Except.error ("AttributeError: module numpy has no attribute " ++ "no_such_dtype") :
        Except String GymSpace) ≠ .ok fallbackBox := by
  exact ⟨rfl, by simp⟩

/-- C3 (amended): the decoder returns the fallback continuous space
(bounds [-1,1], shape (1,), float32) for any unrecognized type tag, and
for a BOX descriptor it defaults the dtype to float32 only when the
dtype tag is absent (the empty string); when a BOX dtype tag is present
but is not a numpy attribute, the decoder raises AttributeError rather
than falling back or defaulting. -/
theorem decode_fallback_amended :
    (∀ ps : ProtoSpace, 4 ≤ ps.type → convertProtoSpaceToGym ps = .ok fallbackBox) ∧
    (∀ ps : ProtoSpace, ps.type = 0 → ps.dtype = "" →
      convertProtoSpaceToGym ps
        = .ok (.box (ps.low.map .fin) (ps.high.map .fin) ps.shape .float32)) ∧
    (∀ ps : ProtoSpace, ps.type = 0 → ps.dtype ≠ "" → numpyDtypeAttr ps.dtype = none →
      convertProtoSpaceToGym ps
        = .error ("AttributeError: module numpy has no attribute " ++ ps.dtype)) := by
  refine ⟨?_, ?_, ?_⟩
  · intro ps h
    have h0 : ¬ ps.type = 0 := by omega
    have h1 : ¬ ps.type = 1 := by omega
    have h2 : ¬ ps.type = 2 := by omega
    have h3 : ¬ ps.type = 3 := by omega
    simp [convertProtoSpaceToGym, h0, h1, h2, h3]
  · intro ps h0 hdt
    simp [convertProtoSpaceToGym, h0, hdt]
  · intro ps h0 hdt hattr
    simp [convertProtoSpaceToGym, h0, hdt, hattr]

/-- C3 amended witness: type tag 9 decodes to the fallback Box. -/
theorem decode_fallback_amended_witness :
    convertProtoSpaceToGym ⟨9, [], [], [], ""⟩ = .ok fallbackBox :=
  decode_fallback_amended.1 ⟨9, [], [], [], ""⟩ (by norm_num)

/-- C8: a DISCRETE descriptor (type tag 1) decodes to the discrete space
whose cardinality is the first element of the shape, defaulting to 2
when the shape is empty. -/
theorem discrete_decode_shape (ps : ProtoSpace) (h : ps.type = 1) :
    convertProtoSpaceToGym ps
      = .ok (.discrete (match ps.shape with | [] => 2 | n :: _ => (n : Int))) := by
  simp [convertProtoSpaceToGym, h]

/-- C8 witness: shape [5] yields Discrete(5) and an empty shape yields
Discrete(2). -/
theorem discrete_decode_shape_witness :
    convertProtoSpaceToGym ⟨1, [], [], [5], ""⟩ = .ok (.discrete 5) ∧
    convertProtoSpaceToGym ⟨1, [], [], [], ""⟩ = .ok (.discrete 2) :=
  ⟨by simpa using discrete_decode_shape ⟨1, [], [], [5], ""⟩ rfl,
   by simpa using discrete_decode_shape ⟨1, [], [], [], ""⟩ rfl⟩

/-- C10: when fetching or decoding the spaces fails, space setup does not
raise: it installs the bounded fallback action Box (low -1, high 1,
shape (1,), float32) and the unbounded observation Box (low -inf, high
+inf, shape (1,), float32), and records that the spaces were not
loaded. -/
theorem setupSpaces_failure_defaults (fetched : Except String (ProtoSpace × ProtoSpace))
    (e : String) (h : spacesPipeline fetched = .error e) :
    setupSpaces fetched
      = (.box [.fin (-1)] [.fin 1] [1] .float32,
         .box [.negInf] [.posInf] [1] .float32, false) := by
  simp [setupSpaces, h, fallbackBox, defaultObservationBox]

/-- C10 witness: a failed space fetch yields the two default Boxes and a
false spaces-loaded flag. -/
theorem setupSpaces_failure_defaults_witness :
    setupSpaces (.error "connection failed")
      = (.box [.fin (-1)] [.fin 1] [1] .float32,
         .box [.negInf] [.posInf] [1] .float32, false) :=
  setupSpaces_failure_defaults (.error "connection failed") "connection failed" rfl

/-- C4 counterexample: with scenario "cart" and random draw 1234 the
generated identifier is "grpc_env_cart_1234", which does not consist of
the scenario name followed by an underscore and a 4-digit number: its
first five characters differ from "cart_". -/
theorem genEnvId_counterexample :
    genEnvId "cart" 1234 = "grpc_env_cart_1234" ∧
    (genEnvId "cart" 1234).data.take 5 ≠ ("cart" ++ "_").data := by
  exact ⟨by decide, by decide⟩

/-- C4 (amended): the generated identifier is "grpc_env_" followed by the
scenario name, an underscore, and the decimal rendering of the random
draw, which for draws in the actual range 1000..9998 (numpy randint's
upper bound is exclusive) is always a 4-digit suffix. -/
theorem genEnvId_amended (scenario : String) (r : Nat) (h1 : 1000 ≤ r) (h2 : r ≤ 9998) :
    genEnvId scenario r = "grpc_env_" ++ scenario ++ "_" ++ natToDecimalString r ∧
    (natToDecimalString r).length = 4 ∧
    ∀ c ∈ (natToDecimalString r).data, c.isDigit := by
  refine ⟨rfl, ?_, ?_⟩
  · have hlen : (decimalDigitsAux r r).length = 4 :=
      decimalDigitsAux_length 3 r r (le_refl r) (by norm_num; omega) (by norm_num; omega)
    simp [natToDecimalString, decimalDigitsList, String.length, hlen]
  · intro c hc
    simp [natToDecimalString, decimalDigitsList] at hc
    obtain ⟨d, hd, rfl⟩ := hc
    exact digitChar_isDigit d (decimalDigitsAux_lt_ten r r (le_refl r) d hd)

/-- C4 amended witness: the identifier generated for scenario "cart" and
draw 1000. -/
theorem genEnvId_amended_witness :
    genEnvId "cart" 1000 = "grpc_env_" ++ "cart" ++ "_" ++ natToDecimalString 1000 ∧
    (natToDecimalString 1000).length = 4 ∧
    ∀ c ∈ (natToDecimalString 1000).data, c.isDigit :=
  genEnvId_amended "cart" 1000 (by decide) (by decide)

/-- C6 counterexample: a response with one observation whose data vector
is empty makes reset succeed (the observations list is non-empty) but
return an info mapping without the derived observation_size entry,
because the source only adds it when the observation length is at least
one. -/
theorem resetParse_counterexample :
    resetParse ⟨[⟨[]⟩], []⟩ = .ok ([], []) ∧
    dictGet ([] : List (String × InfoVal)) "observation_size" = none := by
  exact ⟨rfl, rfl⟩

/-- C6 (amended): reset fails exactly when the response carries no
observations; on success it returns the first observation's data as the
observation vector together with the info mapping, and the info mapping
contains the derived observation_size entry — equal to the observation
vector's length — exactly when that length is at least one (the entry is
omitted for an empty observation vector, in which case the info mapping
is the server's info verbatim). -/
theorem resetParse_amended (resp : ResetResponse) :
    ((∃ e, resetParse resp = .error e) ↔ resp.observations = []) ∧
    (∀ obs info, resetParse resp = .ok (obs, info) →
      obs = (resp.observations.headD ⟨[]⟩).data ∧
      (1 ≤ obs.length →
        dictGet info "observation_size" = some (.int (obs.length : Int))) ∧
      (obs.length = 0 →
        info = resp.info.map (fun p => (p.1, InfoVal.str p.2)))) := by
  cases hobs : resp.observations with
  | nil =>
    constructor
    · constructor
      · intro _
        rfl
      · intro _
        exact ⟨"No observations received from environment reset", by simp [resetParse, hobs]⟩
    · intro obs info h
      simp [resetParse, hobs] at h
  | cons o t =>
    constructor
    · constructor
      · intro ⟨e, he⟩
        simp [resetParse, hobs] at he
      · intro h
        simp at h
    · intro obs info h
      simp only [resetParse, hobs] at h
      by_cases hlen : 1 ≤ o.data.length
      · rw [if_pos hlen] at h
        simp only [Except.ok.injEq, Prod.mk.injEq] at h
        obtain ⟨rfl, rfl⟩ := h
        refine ⟨by simp [hobs], fun _ => ?_, fun h0 => ?_⟩
        · exact dictGet_dictSet _ _ _
        · omega
      · rw [if_neg hlen] at h
        simp only [Except.ok.injEq, Prod.mk.injEq] at h
        obtain ⟨rfl, rfl⟩ := h
        refine ⟨by simp [hobs], fun h1 => ?_, fun _ => rfl⟩
        omega

/-- C6 amended witness: a two-element observation with one server info
entry yields the derived observation_size entry 2. -/
theorem resetParse_amended_witness :
    ([1, 2] : List Rat) = ((⟨[⟨[1, 2]⟩], [("a", "b")]⟩ :
        ResetResponse).observations.headD ⟨[]⟩).data ∧
    (1 ≤ ([1, 2] : List Rat).length →
      dictGet [("a", InfoVal.str "b"), ("observation_size", InfoVal.int 2)]
        "observation_size" = some (.int (([1, 2] : List Rat).length : Int))) ∧
    (([1, 2] : List Rat).length = 0 →
      [("a", InfoVal.str "b"), ("observation_size", InfoVal.int 2)]
        = ([("a", "b")] : List (String × String)).map (fun p => (p.1, InfoVal.str p.2))) :=
  (resetParse_amended ⟨[⟨[1, 2]⟩], [("a", "b")]⟩).2 [1, 2]
    [("a", InfoVal.str "b"), ("observation_size", InfoVal.int 2)] rfl

theorem createEnvironment_ok_created (serverOk : Bool) (s s1 : EnvState)
    (reqs : List Request) (h : createEnvironment serverOk s = (reqs, .ok s1)) :
    s1.envCreated = true := by
  unfold createEnvironment at h
  by_cases hc : s.envCreated
  · rw [if_pos hc] at h
    simp only [Prod.mk.injEq, Except.ok.injEq] at h
    rw [← h.2]
    exact hc
  · rw [if_neg hc] at h
    simp only [Prod.mk.injEq] at h
    by_cases hok : serverOk
    · rw [if_pos hok] at h
      have := h.2
      simp only [Except.ok.injEq] at this
      rw [← this]
    · rw [if_neg hok] at h
      exact absurd h.2 (by simp)

/-- C7: lifecycle idempotence — a second close issues no remote request
at all (in particular no second CloseEnvironment request), and after any
successful reset the created flag is set, so a second reset issues
exactly the ResetEnvironment request and no second CreateEnvironment
request. -/
theorem lifecycle_idempotent (s : EnvState) :
    (closeEnv (closeEnv s).2).1 = [] ∧
    (∀ serverOk resp s1 obs info,
      (resetCall serverOk s resp).2 = .ok (s1, obs, info) →
      ∀ serverOk2 resp2, (resetCall serverOk2 s1 resp2).1 = [Request.resetEnv]) := by
  constructor
  · by_cases h : s.envCreated <;> simp [closeEnv, h]
  · intro serverOk resp s1 obs info h serverOk2 resp2
    have hs1 : s1.envCreated = true := by
      unfold resetCall at h
      cases hce : createEnvironment serverOk s with
      | mk reqs r =>
        rw [hce] at h
        cases r with
        | error e => simp at h
        | ok s2 =>
          cases hp : resetParse resp with
          | error e2 => rw [hp] at h; simp [Except.map] at h
          | ok p =>
            rw [hp] at h
            simp only [Except.map, Except.ok.injEq, Prod.mk.injEq] at h
            rw [← h.1]
            exact createEnvironment_ok_created serverOk s s2 reqs hce
    simp [resetCall, createEnvironment, hs1]

/-- C7 witness: starting uncreated, a successful reset leaves the created
state, and the next reset issues only the ResetEnvironment request. -/
theorem lifecycle_idempotent_witness :
    (resetCall true ⟨true⟩ ⟨[⟨[1]⟩], []⟩).1 = [Request.resetEnv] :=
  (lifecycle_idempotent ⟨false⟩).2 true ⟨[⟨[1]⟩], []⟩ ⟨true⟩ [1]
    [("observation_size", .int 1)] rfl true ⟨[⟨[1]⟩], []⟩

end RlEnvEngine
